import Mathlib

/-!
Verification development for the "One" learning-sandbox repository
(src/others/learn/One). The embedding covers the three mechanisms the
specification names: the Instance Counter (class Animal with its static
member count, animal.cpp), the age-conversion helper and its wrappers
(calc, catYears, dogYears in main.cpp), and the Observable Property with
its periodic timer (class TestQProperty, testqproperty.cpp/.h).
Framework classes (QTimer, QCoreApplication) are not part of the
repository source; where their behaviour decides a property they are
modelled from the specification's contract, and each such definition
says so in its doc comment.
-/

set_option autoImplicit false

/-! ### Instance Counter: class Animal (animal.cpp, animal.h)

The constructor runs `count++` and the destructor runs `count--` on the
static member `int Animal::count`, initialised to 0 in main.cpp line 15.
A program execution, as far as the counter is concerned, is a sequence of
constructor and destructor events. -/

/-- A lifecycle event of an Animal object: a constructor call or a
destructor call. -/
inductive AnimalEvent : Type
  | construct : AnimalEvent
  | destruct : AnimalEvent
deriving DecidableEq

/-- The effect of one lifecycle event on the static counter
Animal::count: the constructor body does count++, the destructor body
does count--. -/
def Animal.countStep (c : Int) : AnimalEvent → Int
  | AnimalEvent.construct => c + 1
  | AnimalEvent.destruct => c - 1

/-- The value of Animal::count after a sequence of lifecycle events,
starting from the value c. -/
def Animal.runCount (c : Int) : List AnimalEvent → Int
  | [] => c
  | e :: es => Animal.runCount (Animal.countStep c e) es

/-- Number of constructor events in an event sequence. -/
def Animal.numConstructs : List AnimalEvent → Nat
  | [] => 0
  | AnimalEvent.construct :: es => Animal.numConstructs es + 1
  | AnimalEvent.destruct :: es => Animal.numConstructs es

/-- Number of destructor events in an event sequence. -/
def Animal.numDestructs : List AnimalEvent → Nat
  | [] => 0
  | AnimalEvent.construct :: es => Animal.numDestructs es
  | AnimalEvent.destruct :: es => Animal.numDestructs es + 1

theorem Animal.runCount_eq (es : List AnimalEvent) : ∀ c : Int,
    Animal.runCount c es
      = c + (Animal.numConstructs es : Int) - (Animal.numDestructs es : Int) := by
  induction es with
  | nil =>
    intro c
    simp [Animal.runCount, Animal.numConstructs, Animal.numDestructs]
  | cons e es ih =>
    intro c
    cases e with
    | construct =>
      simp only [Animal.runCount, Animal.countStep, Animal.numConstructs,
        Animal.numDestructs, ih]
      push_cast
      ring
    | destruct =>
      simp only [Animal.runCount, Animal.countStep, Animal.numConstructs,
        Animal.numDestructs, ih]
      push_cast
      ring

/-- Claim C1: for every sequence of Entity constructions and destructions,
Animal::count equals the number of constructed-but-not-destroyed Entities
at every instant: each construction increments it by exactly 1, each
destruction decrements it by exactly 1, and starting from 0 it equals
constructs minus destructs and is never negative on any prefix when every
destroy is paired with a prior construct. -/
theorem animal_count_tracks_live_instances (es : List AnimalEvent)
    (h : ∀ n : Nat, n ≤ es.length →
      Animal.numDestructs (es.take n) ≤ Animal.numConstructs (es.take n)) :
    (∀ c : Int, Animal.countStep c AnimalEvent.construct = c + 1
        ∧ Animal.countStep c AnimalEvent.destruct = c - 1)
    ∧ Animal.runCount 0 es
        = (Animal.numConstructs es : Int) - (Animal.numDestructs es : Int)
    ∧ (∀ n : Nat, n ≤ es.length → 0 ≤ Animal.runCount 0 (es.take n)) := by
  refine ⟨fun c => ⟨rfl, rfl⟩, ?_, ?_⟩
  · rw [Animal.runCount_eq]
    ring
  · intro n hn
    rw [Animal.runCount_eq]
    have hd := h n hn
    omega

theorem animal_count_tracks_live_instances_witness :
    0 ≤ Animal.runCount 0
        ([AnimalEvent.construct, AnimalEvent.construct, AnimalEvent.destruct].take 2)
    ∧ Animal.runCount 0
        [AnimalEvent.construct, AnimalEvent.construct, AnimalEvent.destruct]
      = ((Animal.numConstructs
            [AnimalEvent.construct, AnimalEvent.construct, AnimalEvent.destruct] : Int)
        - (Animal.numDestructs
            [AnimalEvent.construct, AnimalEvent.construct, AnimalEvent.destruct] : Int)) := by
  have h := animal_count_tracks_live_instances
    [AnimalEvent.construct, AnimalEvent.construct, AnimalEvent.destruct]
    (by decide)
  exact ⟨h.2.2 2 (by decide), h.2.1⟩

/-! ### Age-conversion helper: calc, catYears, dogYears (main.cpp 21-39)

The C++ function is named `calc`; that word is a Lean keyword, so the
embedding calls it `calcAge`. qFatal terminates the process with a fatal
diagnostic and never returns; the embedding renders it as Except.error
carrying the diagnostic text, while a normal return is Except.ok. -/

/-- int calc(int offset, int age): first `if (offset == 0)
qFatal("Offset can not be zero");`, then `if (age <= 0 || age > 120)
qFatal("Invalid age");`, otherwise it returns offset * age. -/
def calcAge (offset age : Int) : Except String Int :=
  if offset = 0 then Except.error "Offset can not be zero"
  else if age ≤ 0 ∨ age > 120 then Except.error "Invalid age"
  else Except.ok (offset * age)

/-- int catYears(int age) { return calc(9, age); } -/
def catYears (age : Int) : Except String Int := calcAge 9 age

/-- int dogYears(int age) { return calc(7, age); } -/
def dogYears (age : Int) : Except String Int := calcAge 7 age

/-- Claim C4: calling calc with an age that is zero or out of range
(age ≤ 0 or age > 120) terminates the process fatally instead of
returning a value, whatever the offset; and fatal termination of the
helper happens exactly on the offset-zero and invalid-age guards, so no
other input aborts. -/
theorem calcAge_fatal_on_invalid_age (offset age : Int) :
    ((age ≤ 0 ∨ age > 120) → ∀ v : Int, calcAge offset age ≠ Except.ok v)
    ∧ ((∃ msg : String, calcAge offset age = Except.error msg)
        ↔ (offset = 0 ∨ age ≤ 0 ∨ age > 120)) := by
  constructor
  · intro hage v hok
    unfold calcAge at hok
    by_cases h0 : offset = 0
    · rw [if_pos h0] at hok
      exact Except.noConfusion hok
    · rw [if_neg h0, if_pos hage] at hok
      exact Except.noConfusion hok
  · constructor
    · rintro ⟨msg, hmsg⟩
      unfold calcAge at hmsg
      by_cases h0 : offset = 0
      · exact Or.inl h0
      · rw [if_neg h0] at hmsg
        by_cases ha : age ≤ 0 ∨ age > 120
        · exact Or.inr ha
        · rw [if_neg ha] at hmsg
          exact Except.noConfusion hmsg
    · intro hcase
      by_cases h0 : offset = 0
      · exact ⟨"Offset can not be zero", by unfold calcAge; rw [if_pos h0]⟩
      · have ha : age ≤ 0 ∨ age > 120 := by
          rcases hcase with h | h | h
          · exact absurd h h0
          · exact Or.inl h
          · exact Or.inr h
        exact ⟨"Invalid age", by unfold calcAge; rw [if_neg h0, if_pos ha]⟩

theorem calcAge_fatal_on_invalid_age_witness :
    (∀ v : Int, calcAge 7 0 ≠ Except.ok v)
    ∧ (∀ v : Int, calcAge 7 200 ≠ Except.ok v)
    ∧ (∃ msg : String, calcAge 7 200 = Except.error msg) :=
  ⟨(calcAge_fatal_on_invalid_age 7 0).1 (Or.inl (by norm_num)),
   (calcAge_fatal_on_invalid_age 7 200).1 (Or.inr (by norm_num)),
   (calcAge_fatal_on_invalid_age 7 200).2.mpr (Or.inr (Or.inr (by norm_num)))⟩

/-- Claim C5: whenever calc returns normally it returns exactly
offset * age; in particular dogYears (factor 7) on age 46 returns 322,
a positive integer. -/
theorem calcAge_returns_offset_times_age (offset age v : Int)
    (h : calcAge offset age = Except.ok v) :
    v = offset * age ∧ dogYears 46 = Except.ok 322 ∧ (0 : Int) < 322 := by
  refine ⟨?_, rfl, by norm_num⟩
  unfold calcAge at h
  by_cases h0 : offset = 0
  · rw [if_pos h0] at h
    exact Except.noConfusion h
  · rw [if_neg h0] at h
    by_cases ha : age ≤ 0 ∨ age > 120
    · rw [if_pos ha] at h
      exact Except.noConfusion h
    · rw [if_neg ha] at h
      simp only [Except.ok.injEq] at h
      exact h.symm

theorem calcAge_returns_offset_times_age_witness :
    calcAge 7 46 = Except.ok 322 ∧ (322 : Int) = 7 * 46 :=
  ⟨rfl, (calcAge_returns_offset_times_age 7 46 322 rfl).1⟩

/-- Claim C8: with offset = 0 the offset guard fires before the age is
examined, for every age, including ages that would themselves be
invalid; and the wrappers actually present use offsets 9 (catYears) and
7 (dogYears), so neither can ever trigger the offset-zero fatal. -/
theorem calcAge_offset_zero_fatal (age : Int) :
    calcAge 0 age = Except.error "Offset can not be zero"
    ∧ (∀ a : Int, catYears a = calcAge 9 a ∧ dogYears a = calcAge 7 a)
    ∧ (∀ a : Int, catYears a ≠ Except.error "Offset can not be zero")
    ∧ (∀ a : Int, dogYears a ≠ Except.error "Offset can not be zero") := by
  refine ⟨by unfold calcAge; rw [if_pos rfl], fun a => ⟨rfl, rfl⟩,
    fun a h => ?_, fun a h => ?_⟩
  · unfold catYears calcAge at h
    rw [if_neg (by norm_num : ¬ (9 : Int) = 0)] at h
    by_cases ha : a ≤ 0 ∨ a > 120
    · rw [if_pos ha] at h
      simp only [Except.error.injEq] at h
      exact absurd h (by decide)
    · rw [if_neg ha] at h
      exact Except.noConfusion h
  · unfold dogYears calcAge at h
    rw [if_neg (by norm_num : ¬ (7 : Int) = 0)] at h
    by_cases ha : a ≤ 0 ∨ a > 120
    · rw [if_pos ha] at h
      simp only [Except.error.injEq] at h
      exact absurd h (by decide)
    · rw [if_neg ha] at h
      exact Except.noConfusion h

/-! ### Periodic timer: QTimer member m_timer of TestQProperty

QTimer is framework code, not part of the repository source; the
specification (sections 3 and 4.3) gives its contract as a two-state
machine. -/

/-- Modelled from the spec: the framework timer behind m_timer. Missing
from the source tree; section 4.3 specifies states Idle and Running,
rendered as the flag `active`, together with a positive firing interval
in milliseconds. -/
structure QTimer where
  intervalMs : Int
  active : Bool
deriving DecidableEq

/-- Modelled from the spec: a freshly constructed timer is Idle; its
interval is unset (0) until setInterval is called. -/
def QTimer.init : QTimer := { intervalMs := 0, active := false }

/-- setInterval(n) stores the interval without changing the state. -/
def QTimer.setInterval (t : QTimer) (n : Int) : QTimer :=
  { t with intervalMs := n }

/-- Modelled from the spec: start transitions Idle to Running (or keeps
Running). -/
def QTimer.start (t : QTimer) : QTimer := { t with active := true }

/-- Modelled from the spec: stop transitions Running to Idle (or keeps
Idle). -/
def QTimer.stop (t : QTimer) : QTimer := { t with active := false }

/-- Modelled from the spec: a tick callback can be dispatched only while
the timer is Running (section 3: the callback fires while `running` is
true, until stopped or destroyed). -/
def QTimer.canFire (t : QTimer) : Bool := t.active

/-- The operations a client can apply to a timer after it exists. -/
inductive QTimerCmd : Type
  | start : QTimerCmd
  | stop : QTimerCmd
  | setInterval : Int → QTimerCmd
deriving DecidableEq

def QTimer.applyCmd (t : QTimer) : QTimerCmd → QTimer
  | QTimerCmd.start => QTimer.start t
  | QTimerCmd.stop => QTimer.stop t
  | QTimerCmd.setInterval n => QTimer.setInterval t n

def QTimer.runCmds (t : QTimer) : List QTimerCmd → QTimer
  | [] => t
  | c :: cs => QTimer.runCmds (QTimer.applyCmd t c) cs

theorem QTimer.runCmds_inactive (cmds : List QTimerCmd) : ∀ t : QTimer,
    t.active = false → QTimerCmd.start ∉ cmds →
    (QTimer.runCmds t cmds).active = false := by
  induction cmds with
  | nil =>
    intro t ht _
    exact ht
  | cons c cs ih =>
    intro t ht hmem
    cases c with
    | start => exact absurd (List.mem_cons_self _ _) hmem
    | stop => exact ih _ rfl (fun hx => hmem (List.mem_cons_of_mem _ hx))
    | setInterval n => exact ih _ ht (fun hx => hmem (List.mem_cons_of_mem _ hx))

/-- Claim C7: once stop has returned the timer is Idle, and as long as no
further start occurs no tick callback can ever be dispatched again for
this timer; stop is idempotent, so stopping an Idle timer is a no-op
that leaves it Idle. -/
theorem qtimer_stop_cancels_and_is_idempotent (t : QTimer)
    (cmds : List QTimerCmd) (h : QTimerCmd.start ∉ cmds) :
    (QTimer.stop t).active = false
    ∧ (QTimer.runCmds (QTimer.stop t) cmds).active = false
    ∧ (QTimer.runCmds (QTimer.stop t) cmds).canFire = false
    ∧ (t.active = false → QTimer.stop t = t) := by
  have hrun := QTimer.runCmds_inactive cmds (QTimer.stop t) rfl h
  refine ⟨rfl, hrun, hrun, ?_⟩
  intro hidle
  cases t with
  | mk i a => simp_all [QTimer.stop]

theorem qtimer_stop_cancels_and_is_idempotent_witness :
    (QTimer.runCmds (QTimer.stop { intervalMs := 1000, active := true })
        [QTimerCmd.stop, QTimerCmd.setInterval 5]).canFire = false
    ∧ QTimer.stop { intervalMs := 1000, active := false }
        = { intervalMs := 1000, active := false } :=
  ⟨(qtimer_stop_cancels_and_is_idempotent { intervalMs := 1000, active := true }
      [QTimerCmd.stop, QTimerCmd.setInterval 5] (by decide)).2.2.1,
   (qtimer_stop_cancels_and_is_idempotent { intervalMs := 1000, active := false }
      [] (by decide)).2.2.2 rfl⟩

/-! ### Observable Property: class TestQProperty (testqproperty.cpp/.h)

State: QString m_message (default-constructed empty) and QTimer m_timer.
Listeners of the messageChanged signal are kept as a list in connection
order; emitting the signal invokes each connected listener with the
argument, synchronously and in that order (spec section 5: notifications
complete, in registration order, before set returns). The listener type
is a parameter L. -/

structure TestQProperty (L : Type) where
  m_message : String
  listeners : List L
  m_timer : QTimer

/-- The constructor TestQProperty::TestQProperty: it connects m_timer's
timeout signal to the timeout slot, then runs m_timer.setInterval(1000)
and m_timer.start(); the m_timer.stop() line is commented out. m_message
is default-constructed to the empty string; no messageChanged listener
is connected anywhere in the source. -/
def TestQProperty.construct (L : Type) : TestQProperty L :=
  { m_message := "",
    listeners := [],
    m_timer := QTimer.start (QTimer.setInterval QTimer.init 1000) }

/-- void TestQProperty::setMessage(const QString &newMessage): assigns
m_message = newMessage, then emits messageChanged(m_message). The
emission is the list of listener invocations, each paired with the
argument it receives, in connection order. -/
def TestQProperty.setMessage {L : Type} (st : TestQProperty L) (v : String) :
    TestQProperty L × List (L × String) :=
  let st2 : TestQProperty L := { st with m_message := v }
  (st2, st2.listeners.map (fun l => (l, st2.m_message)))

/-- QString TestQProperty::message() const: returns m_message; being
const it leaves the object unchanged, which the pair makes explicit. -/
def TestQProperty.message {L : Type} (st : TestQProperty L) :
    String × TestQProperty L :=
  (st.m_message, st)

/-- void TestQProperty::timeout(): the tick slot only logs "Test!"; it
does not touch the object's state. -/
def TestQProperty.timeout {L : Type} (st : TestQProperty L) :
    TestQProperty L × List String :=
  (st, ["Test!"])

/-- The public interface of TestQProperty after construction: the
property accessors, the timeout slot, and connecting a listener to the
messageChanged signal. No operation exposes the timer. -/
inductive TQPOp (L : Type) : Type
  | setMessage : String → TQPOp L
  | message : TQPOp L
  | timeout : TQPOp L
  | connectMessageChanged : L → TQPOp L

def TestQProperty.applyOp {L : Type} (st : TestQProperty L) :
    TQPOp L → TestQProperty L
  | TQPOp.setMessage v => (TestQProperty.setMessage st v).1
  | TQPOp.message => (TestQProperty.message st).2
  | TQPOp.timeout => (TestQProperty.timeout st).1
  | TQPOp.connectMessageChanged l => { st with listeners := st.listeners ++ [l] }

def TestQProperty.applyOps {L : Type} (st : TestQProperty L) :
    List (TQPOp L) → TestQProperty L
  | [] => st
  | op :: ops => TestQProperty.applyOps (TestQProperty.applyOp st op) ops

theorem TestQProperty.applyOps_timer {L : Type} (ops : List (TQPOp L)) :
    ∀ st : TestQProperty L,
      (TestQProperty.applyOps st ops).m_timer = st.m_timer := by
  induction ops with
  | nil => intro st; rfl
  | cons op ops ih =>
    intro st
    exact (ih (TestQProperty.applyOp st op)).trans (by cases op <;> rfl)

/-- Claim C2: for every listener list and every set(v) call, setMessage
replaces the stored value unconditionally and the emission invokes every
currently registered listener exactly once with argument v, in
registration order; the invocation list is produced by the call itself,
so it is complete before setMessage returns. -/
theorem setMessage_notifies_all_in_order {L : Type} (st : TestQProperty L)
    (v : String) :
    ((TestQProperty.setMessage st v).1).m_message = v
    ∧ (TestQProperty.setMessage st v).2 = st.listeners.map (fun l => (l, v)) :=
  ⟨rfl, rfl⟩

/-- Claim C3: set(v) followed immediately by get() returns v, and get has
no side effect: the const accessor returns the object unchanged. -/
theorem set_then_get_returns_written_value {L : Type} (st : TestQProperty L)
    (v : String) :
    (TestQProperty.message ((TestQProperty.setMessage st v).1)).1 = v
    ∧ (TestQProperty.message st).2 = st :=
  ⟨rfl, rfl⟩

/-- Claim C9: setMessage has no equality guard: even when the new value
equals the currently stored one, every registered listener is still
invoked exactly once with that value. -/
theorem setMessage_has_no_equality_guard {L : Type} (st : TestQProperty L)
    (v : String) (_h : st.m_message = v) :
    (TestQProperty.setMessage st v).2 = st.listeners.map (fun l => (l, v))
    ∧ ((TestQProperty.setMessage st v).2).length = st.listeners.length := by
  refine ⟨rfl, ?_⟩
  simp [TestQProperty.setMessage]

theorem setMessage_has_no_equality_guard_witness :
    (TestQProperty.setMessage
        { m_message := "x", listeners := [0, 1, 2], m_timer := QTimer.init } "x").2
      = [(0, "x"), (1, "x"), (2, "x")]
    ∧ ((TestQProperty.setMessage
        { m_message := "x", listeners := [(0 : Nat), 1, 2], m_timer := QTimer.init } "x").2).length
      = 3 := by
  have h := setMessage_has_no_equality_guard
    { m_message := "x", listeners := [(0 : Nat), 1, 2], m_timer := QTimer.init }
    "x" rfl
  exact ⟨h.1.trans rfl, h.2⟩

/-- Claim C10: the constructor alone puts the timer in the Running state
with interval 1000 ms, and no operation of the public interface ever
touches the timer, so it stays exactly as the constructor left it (in
particular Running) until the object is destroyed; no code path calls
stop. -/
theorem constructor_starts_timer_and_nothing_stops_it {L : Type}
    (ops : List (TQPOp L)) :
    (TestQProperty.construct L).m_timer.active = true
    ∧ (TestQProperty.construct L).m_timer.intervalMs = 1000
    ∧ (TestQProperty.applyOps (TestQProperty.construct L) ops).m_timer
        = (TestQProperty.construct L).m_timer := by
  exact ⟨rfl, rfl, TestQProperty.applyOps_timer ops (TestQProperty.construct L)⟩

/-! ### The command-line entry point: main (main.cpp 82-326)

Every experiment block in main is commented out except the
testStaticFunctions block; main then ends with `return a.exec();`.
testStaticFunctions (teststaticfunctions.cpp) only writes log lines:
the constructor logs "Constructed", doStuff logs "doStuff" and calls
doOtherStuff, and doOtherStuff logs "doOtherStuff". -/

/-- Log lines of the testStaticFunctions constructor. -/
def testStaticFunctions.constructTrace : List String := ["Constructed"]

/-- Log lines of testStaticFunctions::doOtherStuff. -/
def testStaticFunctions.doOtherStuff : List String := ["doOtherStuff"]

/-- Log lines of testStaticFunctions::doStuff, which logs and then calls
doOtherStuff. -/
def testStaticFunctions.doStuff : List String :=
  "doStuff" :: testStaticFunctions.doOtherStuff

/-- The live demonstration block of main: construct t, t.doStuff(),
t.doOtherStuff(), testStaticFunctions::doOtherStuff(). -/
def mainDemoTrace : List String :=
  testStaticFunctions.constructTrace ++ testStaticFunctions.doStuff
    ++ testStaticFunctions.doOtherStuff ++ testStaticFunctions.doOtherStuff

/-- Modelled from the spec: QCoreApplication::exec is framework code
missing from the source tree. Per the comments at the top of main and
section 6 of the spec, exec runs the event loop until quit or exit is
requested and then returns the requested exit code (0 for a plain quit);
if the program never requests quit, exec does not return, rendered as
none. The argument lists the exit codes requested by the program, in
order. -/
def QCoreApplication.exec (quitRequests : List Int) : Option Int :=
  quitRequests.head?

/-- Exit codes requested by main: no live statement calls a.quit() or
a.exit(), and no object with a connection to quit is created. -/
def main_quitRequests : List Int := []

/-- The observable outcome of main: the value returned by
`return a.exec();` (none when the event loop never returns) and the log
trace of the demonstration block that runs before it. -/
def main_run : Option Int × List String :=
  (QCoreApplication.exec main_quitRequests, mainDemoTrace)

/-- Claim C6, counterexample: main does not return the exit code 0 — the
event loop is never asked to quit, so a.exec() never returns at all. -/
theorem main_never_returns_counterexample :
    main_run.1 = none ∧ main_run.1 ≠ some 0 := by
  exact ⟨rfl, by simp [main_run, QCoreApplication.exec, main_quitRequests]⟩

/-- Claim C6, amended: the entry point runs its one fixed demonstration
routine to completion (the full trace below) and then enters the
framework event loop; since the program never requests quit, the loop
never returns and the process does not terminate on its own. Had a quit
with exit code c been requested, exec would have returned c (0 for a
plain quit). -/
theorem main_demo_completes_then_event_loop_blocks :
    main_run.2 = ["Constructed", "doStuff", "doOtherStuff", "doOtherStuff",
        "doOtherStuff"]
    ∧ main_run.1 = none
    ∧ (∀ (c : Int) (rest : List Int),
        QCoreApplication.exec (c :: rest) = some c) :=
  ⟨rfl, rfl, fun _ _ => rfl⟩
